import Mathlib

/-!
Verification of the EmailBot email-processing service against its
natural-language specification.

The Lean definitions below are a shallow embedding of the Python sources:

* `app/models/email_models.py` — enumerations and the classification record;
* `app/services/email_processor.py` — confidence thresholds, the routing
  decision and the per-email pipeline;
* `app/core/llm_service.py` — classification parsing, fallback and retry;
* `app/config/settings.py` — threshold validation;
* `app/integrations/m365_client.py` — fetching and replying;
* `app/utils/encryption.py` — field encryption with key rotation;
* `app/utils/rate_limiter.py` — the sliding-window rate limiter;
* `app/services/database_service.py` — idempotent email insertion.

Python floats are modelled as rationals, mutable objects as explicit state
passing, and fallible calls as `Except` / `Option` values.
-/

namespace EmailBot

/-- Enumeration `EmailCategory` from `app/models/email_models.py`. -/
inductive EmailCategory where
  | purchasing
  | support
  | information
  | escalation
  | consultation
deriving DecidableEq, Repr

/-- Enumeration `UrgencyLevel` from `app/models/email_models.py`. -/
inductive UrgencyLevel where
  | low
  | medium
  | high
  | critical
deriving DecidableEq, Repr

/-- Enumeration `ProcessingStatus` from `app/models/email_models.py`. -/
inductive ProcessingStatus where
  | received
  | classifying
  | analyzing
  | routing
  | responding
  | escalating
  | completed
  | failed
deriving DecidableEq, Repr

/-- The pydantic model `ClassificationResult` from
`app/models/email_models.py`.  The pydantic range validation on
`confidence` (`ge=0, le=100`) is enforced by `mkClassificationResult`
below; the record itself carries the fields. -/
structure ClassificationResult where
  category : EmailCategory
  confidence : ℚ
  reasoning : String
  urgency : UrgencyLevel
  suggestedAction : String
  requiredExpertise : List String
  estimatedEffort : String
deriving DecidableEq, Repr

/-- The dataclass `ConfidenceThresholds` from
`app/services/email_processor.py`. -/
structure ConfidenceThresholds where
  autoHandle : ℚ
  suggestResponse : ℚ
  escalateReview : ℚ
deriving DecidableEq, Repr

/-- The default thresholds (`auto_handle=85`, `suggest_response=60`,
`escalate_review=40`), matching the `Settings` defaults
`confidence_threshold_auto/suggest/review` in `app/config/settings.py`. -/
def defaultThresholds : ConfidenceThresholds :=
  { autoHandle := 85, suggestResponse := 60, escalateReview := 40 }

/-- The four values of the `action` key returned by
`EmailProcessingPipeline._make_routing_decision`. -/
inductive RouteAction where
  | escalate
  | autoHandle
  | suggestResponse
  | manualReview
deriving DecidableEq, Repr

/-- `EmailProcessingPipeline._make_routing_decision` from
`app/services/email_processor.py` (lines 196-239), reduced to the
`action` key of the returned dict.  The source first checks
`urgency in [CRITICAL, HIGH]` and, inside that branch,
`confidence >= suggest_response`; when the inner test fails control
falls through to the standard confidence chain, which the flattened
conditional below reproduces. -/
def makeRoutingDecision (th : ConfidenceThresholds)
    (cls : ClassificationResult) : RouteAction :=
  if (cls.urgency = .critical ∨ cls.urgency = .high) ∧
      th.suggestResponse ≤ cls.confidence then
    .escalate
  else if th.autoHandle ≤ cls.confidence then
    .autoHandle
  else if th.suggestResponse ≤ cls.confidence then
    .suggestResponse
  else if th.escalateReview ≤ cls.confidence then
    .manualReview
  else
    .escalate

/-- The routing decision table as written in the specification
(section 4.9): first matching row wins.  This is the spec-side
definition used to state the refinement in claim C2; it is compared
against `makeRoutingDecision`, which is translated from the source. -/
def routerSpecTable (auto suggest review : ℚ)
    (confidence : ℚ) (urgency : UrgencyLevel) : RouteAction :=
  if (urgency = .critical ∨ urgency = .high) ∧ suggest ≤ confidence then
    .escalate
  else if auto ≤ confidence then
    .autoHandle
  else if suggest ≤ confidence then
    .suggestResponse
  else if review ≤ confidence then
    .manualReview
  else
    .escalate

/-- A classification value carrying only the fields the router reads,
used to quantify router claims over confidence and urgency. -/
def mkRouterInput (confidence : ℚ) (urgency : UrgencyLevel) :
    ClassificationResult :=
  { category := .information
    confidence := confidence
    reasoning := ""
    urgency := urgency
    suggestedAction := ""
    requiredExpertise := []
    estimatedEffort := "" }

/-! Definitions: LLM service (`app/core/llm_service.py`) -/

/-- A decoded JSON value, as produced by `json.loads` in
`LLMService._parse_classification_response`.  Objects are association
lists in insertion order. -/
inductive Jval where
  | null
  | bool (b : Bool)
  | num (q : ℚ)
  | str (s : String)
  | arr (l : List Jval)
  | obj (l : List (String × Jval))
deriving Repr

/-- Dictionary update `d[k] = v` when `k` is absent, as performed by the
field-defaulting statements in `_parse_classification_response`
(`if "category" not in data: data["category"] = ...`). -/
def setDefault (d : List (String × Jval)) (k : String) (v : Jval) :
    List (String × Jval) :=
  if (d.lookup k).isSome then d else d ++ [(k, v)]

/-- Dictionary read `d.get(k, v)`. -/
def getOr (d : List (String × Jval)) (k : String) (v : Jval) : Jval :=
  (d.lookup k).getD v

/-- `LLMService._parse_classification_response` from
`app/core/llm_service.py` (lines 234-282), modelled at the level of the
decoded JSON: the input is `some data` when `json.loads` succeeded on
the extracted text and `none` when it raised `JSONDecodeError`.  On
success each missing required field is filled with its default (note
the `confidence` default is 50); on decode failure the fixed fallback
dict with confidence 25 is returned. -/
def parseClassificationResponse (decoded : Option (List (String × Jval))) :
    List (String × Jval) :=
  match decoded with
  | some data =>
      let data := setDefault data "category" (.str "INFORMATION")
      let data := setDefault data "confidence" (.num 50)
      let data := setDefault data "reasoning" (.str "No reasoning provided")
      let data := setDefault data "urgency" (.str "MEDIUM")
      let data := setDefault data "suggested_action" (.str "Manual review required")
      let data := setDefault data "required_expertise" (.arr [.str "it_admin"])
      let data := setDefault data "estimated_effort" (.str "Unknown")
      data
  | none =>
      [("category", .str "INFORMATION"),
       ("confidence", .num 25),
       ("reasoning", .str "Failed to parse LLM response"),
       ("urgency", .str "MEDIUM"),
       ("suggested_action", .str "Manual review required"),
       ("required_expertise", .arr [.str "it_admin"]),
       ("estimated_effort", .str "Unknown")]

/-- The `EmailCategory(value)` enum constructor: returns the member for
one of the five closed string values and raises `ValueError` (here
`none`) otherwise. -/
def emailCategoryOfString (s : String) : Option EmailCategory :=
  if s = "PURCHASING" then some .purchasing
  else if s = "SUPPORT" then some .support
  else if s = "INFORMATION" then some .information
  else if s = "ESCALATION" then some .escalation
  else if s = "CONSULTATION" then some .consultation
  else none

/-- The `UrgencyLevel(value)` enum constructor. -/
def urgencyLevelOfString (s : String) : Option UrgencyLevel :=
  if s = "LOW" then some .low
  else if s = "MEDIUM" then some .medium
  else if s = "HIGH" then some .high
  else if s = "CRITICAL" then some .critical
  else none

/-- Digits of a decimal literal read into a natural number; `none` on an
empty or non-digit list. -/
def digitsToNat (cs : List Char) : Option ℕ :=
  if cs.isEmpty then none
  else
    cs.foldl
      (fun acc c =>
        match acc with
        | none => none
        | some n => if c.isDigit then some (n * 10 + (c.toNat - 48)) else none)
      (some 0)

/-- Unsigned part of Python `float(string)`: `digits`, `digits.`,
`.digits` or `digits.digits`.  Exponent forms, `inf`, `nan` and
underscore separators are not produced by any input considered here and
are modelled as failures. -/
def decimalOfString (s : String) : Option ℚ :=
  match s.splitOn "." with
  | [a] => (digitsToNat a.toList).map (fun n => (n : ℚ))
  | [a, b] =>
      if a.isEmpty ∧ b.isEmpty then none
      else
        let ip : Option ℕ := if a.isEmpty then some 0 else digitsToNat a.toList
        let fp : Option ℕ := if b.isEmpty then some 0 else digitsToNat b.toList
        match ip, fp with
        | some i, some f => some ((i : ℚ) + (f : ℚ) / ((10 : ℚ) ^ b.length))
        | _, _ => none
  | _ => none

/-- Python `float(x)` applied to a decoded JSON value: numbers pass
through, booleans coerce to 0 or 1, numeric strings (with optional sign
and surrounding whitespace) are parsed, and every other value raises
(`none`). -/
def pyFloatOfJval (v : Jval) : Option ℚ :=
  match v with
  | .num q => some q
  | .bool b => some (if b then 1 else 0)
  | .str s =>
      let t := s.trim
      if t.startsWith "-" then (decimalOfString (t.drop 1)).map Neg.neg
      else if t.startsWith "+" then decimalOfString (t.drop 1)
      else decimalOfString t
  | _ => none

/-- A JSON string value, or `none` for anything pydantic rejects for a
`str` field. -/
def jvalString : Jval → Option String
  | .str s => some s
  | _ => none

/-- A JSON array of strings, or `none` for anything pydantic rejects
for a `List[str]` field. -/
def jvalStringList : Jval → Option (List String)
  | .arr l => l.foldr
      (fun v acc =>
        match v, acc with
        | .str s, some r => some (s :: r)
        | _, _ => none)
      (some [])
  | _ => none

/-- The pydantic constructor `ClassificationResult(...)`: field values
already carry their enum types here, and the model validation
`confidence: float = Field(..., ge=0, le=100)` raises (`Except.error`)
outside the range. -/
def mkClassificationResult (category : EmailCategory) (confidence : ℚ)
    (reasoning : String) (urgency : UrgencyLevel) (suggestedAction : String)
    (requiredExpertise : List String) (estimatedEffort : String) :
    Except String ClassificationResult :=
  if 0 ≤ confidence ∧ confidence ≤ 100 then
    .ok { category := category, confidence := confidence,
          reasoning := reasoning, urgency := urgency,
          suggestedAction := suggestedAction,
          requiredExpertise := requiredExpertise,
          estimatedEffort := estimatedEffort }
  else
    .error "confidence must be between 0 and 100"

/-- The body of the `try` block of `LLMService.classify_email` after the
LLM response has been parsed: builds the `ClassificationResult` from the
defaulted dict.  Each conversion that raises in Python (`EmailCategory`
or `UrgencyLevel` on an unknown value, `float` on a non-numeric value,
pydantic validation) is an `Except.error` here and is caught by the
caller. -/
def buildClassification (data : List (String × Jval)) :
    Except String ClassificationResult := do
  let category ←
    match getOr data "category" (.str "INFORMATION") with
    | .str s =>
        match emailCategoryOfString s with
        | some c => Except.ok c
        | none => Except.error ("is not a valid EmailCategory: " ++ s)
    | _ => Except.error "is not a valid EmailCategory"
  let confidence ←
    match pyFloatOfJval (getOr data "confidence" (.num 50)) with
    | some q => Except.ok q
    | none => Except.error "could not convert value to float"
  let reasoning ←
    match jvalString (getOr data "reasoning"
        (.str "Unable to determine classification reasoning")) with
    | some s => Except.ok s
    | none => Except.error "reasoning must be a string"
  let urgency ←
    match getOr data "urgency" (.str "MEDIUM") with
    | .str s =>
        match urgencyLevelOfString s with
        | some u => Except.ok u
        | none => Except.error ("is not a valid UrgencyLevel: " ++ s)
    | _ => Except.error "is not a valid UrgencyLevel"
  let suggestedAction ←
    match jvalString (getOr data "suggested_action"
        (.str "Manual review required")) with
    | some s => Except.ok s
    | none => Except.error "suggested_action must be a string"
  let requiredExpertise ←
    match jvalStringList (getOr data "required_expertise" (.arr [])) with
    | some l => Except.ok l
    | none => Except.error "required_expertise must be a list of strings"
  let estimatedEffort ←
    match jvalString (getOr data "estimated_effort" (.str "Unknown")) with
    | some s => Except.ok s
    | none => Except.error "estimated_effort must be a string"
  mkClassificationResult category confidence reasoning urgency
    suggestedAction requiredExpertise estimatedEffort

/-- The fallback classification returned by the `except` clause of
`LLMService.classify_email` (lines 53-64): INFORMATION, confidence 0,
reasoning prefixed with the failure text, urgency MEDIUM. -/
def fallbackClassification (err : String) : ClassificationResult :=
  { category := .information
    confidence := 0
    reasoning := "Classification failed: " ++ err
    urgency := .medium
    suggestedAction := "Manual review required due to classification error"
    requiredExpertise := ["it_admin"]
    estimatedEffort := "Unknown" }

/-- `LLMService.classify_email` from `app/core/llm_service.py`
(lines 26-64), as a function of the outcome of the LLM exchange:
`Except.error e` when `_call_llm_with_retry` raised after exhausting its
retries, `Except.ok none` when the returned text was not decodable JSON,
and `Except.ok (some data)` when it decoded to the object `data`.
Any error raised inside the `try` block (including retry exhaustion and
enum or validation errors while building the result) produces the
fallback classification instead of propagating. -/
def classifyEmail (llm : Except String (Option (List (String × Jval)))) :
    ClassificationResult :=
  match llm with
  | .error e => fallbackClassification e
  | .ok decoded =>
      match buildClassification (parseClassificationResponse decoded) with
      | .ok r => r
      | .error e => fallbackClassification e

/-- One loop iteration state of `LLMService._call_llm_with_retry`
(lines 201-232): `attempt` is the Python loop index, `fuel` the number
of remaining iterations, `lastErr` the text of `last_exception`.  The
result pairs the final outcome with the list of back-off sleeps
performed, in order; a sleep of `delay * (attempt + 1)` happens after
every failed attempt except the last. -/
def callLLMGo (delay : ℚ) (total : ℕ) (outcomes : ℕ → Except String String) :
    ℕ → ℕ → String → Except String String × List ℚ
  | _, 0, lastErr =>
      (.error ("LLM call failed after " ++ toString total ++ " attempts: " ++
        lastErr), [])
  | attempt, fuel + 1, _ =>
      match outcomes attempt with
      | .ok content => (.ok content, [])
      | .error e =>
          if fuel = 0 then
            (.error ("LLM call failed after " ++ toString total ++
              " attempts: " ++ e), [])
          else
            let rest := callLLMGo delay total outcomes (attempt + 1) fuel e
            (rest.1, delay * ((attempt : ℚ) + 1) :: rest.2)

/-- `LLMService._call_llm_with_retry`: up to `maxRetries` attempts,
where `outcomes n` is the result of the n-th API call — `Except.ok`
with the message content when `response.choices` is non-empty, and
`Except.error` for every raised exception (network errors, HTTP error
statuses of any class, and the locally raised empty-choices error all
reach the same `except Exception` handler).  `last_exception` starts as
Python `None`. -/
def callLLMWithRetry (maxRetries : ℕ) (delay : ℚ)
    (outcomes : ℕ → Except String String) : Except String String × List ℚ :=
  callLLMGo delay maxRetries outcomes 0 maxRetries "None"

/-! Definitions: Configuration validation (`app/config/settings.py`) -/

/-- The three confidence-threshold fields of the pydantic `Settings`
model (`confidence_threshold_auto/suggest/review`). -/
structure ThresholdSettings where
  auto : ℚ
  suggest : ℚ
  review : ℚ
deriving DecidableEq, Repr

/-- `Settings.validate_auto_threshold` from `app/config/settings.py`
(lines 144-150): the only field validator touching the confidence
thresholds.  It checks `70.0 <= auto <= 100.0` and raises otherwise;
`confidence_threshold_suggest` and `confidence_threshold_review` have
no validator, so pydantic accepts the model whenever this check
passes. -/
def validateThresholdSettings (t : ThresholdSettings) :
    Except String ThresholdSettings :=
  if 70 ≤ t.auto ∧ t.auto ≤ 100 then .ok t
  else .error "Auto threshold must be between 70 and 100"

/-- The default threshold assignment of `Settings`. -/
def defaultThresholdSettings : ThresholdSettings :=
  { auto := 85, suggest := 60, review := 40 }

/-! Definitions: Mail gateway (`app/integrations/m365_client.py`) -/

/-- The fields of a Graph mail message that the fetch path reads. -/
structure GraphMessage where
  id : String
  receivedDateTime : ℚ
  isRead : Bool
deriving DecidableEq, Repr

/-- The OData `$filter` built by `M365EmailClient.fetch_new_emails`
(lines 37-48): `receivedDateTime gt since` when a lower bound is given,
always conjoined with `isRead eq false`. -/
def matchesFetchFilter (since : Option ℚ) (m : GraphMessage) : Bool :=
  !m.isRead &&
    (match since with
     | none => true
     | some s => decide (s < m.receivedDateTime))

/-- `M365EmailClient.fetch_new_emails` from
`app/integrations/m365_client.py` (lines 32-74).  The request the
client builds carries `$filter` as above, `$orderby receivedDateTime
desc` and `$top batch_size`; the Graph endpoint is external and is
modelled as executing exactly that request over the mailbox contents:
filter, sort by received time descending, take a page.  The per-message
conversion `_convert_message_to_email` preserves order and count on
well-formed messages and is elided. -/
def fetchNewEmails (batchSize : ℕ) (since : Option ℚ)
    (mailbox : List GraphMessage) : List GraphMessage :=
  ((mailbox.filter (matchesFetchFilter since)).insertionSort
    (fun a b => b.receivedDateTime ≤ a.receivedDateTime)).take batchSize

/-- The reply message built by `M365EmailClient.send_reply`
(lines 143-176): only the fields the claim is about. -/
structure ReplyMessage where
  subject : String
  content : String
  isHtml : Bool
  toAddress : String
deriving DecidableEq, Repr

/-- The email fields `send_reply` reads from the original message. -/
structure OriginalEmail where
  id : String
  senderEmail : String
  senderName : Option String
  subject : String
deriving DecidableEq, Repr

/-- `M365EmailClient.send_reply`: the reply message construction.  The
source sets `subject=f"Re: <original subject>"` unconditionally — there
is no check for an existing prefix — and addresses the sender of the
original email. -/
def buildReplyMessage (original : OriginalEmail) (replyContent : String)
    (isHtml : Bool) : ReplyMessage :=
  { subject := "Re: " ++ original.subject
    content := replyContent
    isHtml := isHtml
    toAddress := original.senderEmail }

/-! Definitions: Field encryption (`app/utils/encryption.py`) -/

/-- A Fernet token.  Modelled from the spec: the Fernet cipher is an
external library; its contract (symmetric encryption — a token
decrypts to the original plaintext under exactly the key that produced
it) is represented by recording the producing key and the plaintext. -/
structure FernetToken where
  keyUsed : ℕ
  payload : String
deriving DecidableEq, Repr

/-- `SecurityManager.encrypt_data`: encryption under the manager's
single process-wide Fernet key. -/
def encryptData (managerKey : ℕ) (value : String) : FernetToken :=
  { keyUsed := managerKey, payload := value }

/-- `SecurityManager.decrypt_data`: decryption under the manager's
Fernet key; a token produced by a different key raises InvalidToken. -/
def decryptData (managerKey : ℕ) (token : FernetToken) :
    Except String String :=
  if token.keyUsed = managerKey then .ok token.payload
  else .error "invalid token"

/-- One entry of `FieldEncryption.key_store`: the Fernet key and the
active flag (creation timestamp and version are not read by the
operations below). -/
structure KeyEntry where
  fernetKey : ℕ
  active : Bool
deriving DecidableEq, Repr

/-- Python dict assignment `d[k] = v`: replace an existing binding in
place or append a new one. -/
def dictInsert (store : List (String × KeyEntry)) (k : String)
    (v : KeyEntry) : List (String × KeyEntry) :=
  if (store.lookup k).isSome then
    store.map (fun p => if p.1 = k then (k, v) else p)
  else
    store ++ [(k, v)]

/-- The mutable state of a `FieldEncryption` instance
(`app/utils/encryption.py`): the security manager's Fernet key, the
key store and the current key id. -/
structure FieldEncryptionState where
  managerKey : ℕ
  keyStore : List (String × KeyEntry)
  currentKeyId : String
deriving DecidableEq, Repr

/-- `FieldEncryption._init_key_management` (lines 47-63): the store
starts with the id "primary" bound to the security manager's own
Fernet. -/
def initFieldEncryption (managerKey : ℕ) : FieldEncryptionState :=
  { managerKey := managerKey
    keyStore := [("primary", { fernetKey := managerKey, active := true })]
    currentKeyId := "primary" }

/-- The metadata fields of an encrypted envelope read by
`decrypt_field`. -/
structure EncryptionMetadata where
  fieldName : String
  keyId : String
  dataType : String
deriving DecidableEq, Repr

/-- The envelope returned by `encrypt_field`: the encrypted value and
its metadata, each absent for a `None` input. -/
structure EncryptedField where
  encryptedValue : Option FernetToken
  meta : Option EncryptionMetadata
deriving DecidableEq, Repr

/-- `FieldEncryption.encrypt_field` (lines 65-127) for a string field
value (for which `str(value)` is the value itself): the value is
encrypted with `self.security_manager.encrypt_data` — the manager's
fixed Fernet, regardless of `current_key_id` — and the metadata records
`current_key_id` as `key_id`. -/
def encrypt_field (st : FieldEncryptionState) (fieldName : String)
    (value : Option String) : EncryptedField :=
  match value with
  | none => { encryptedValue := none, meta := none }
  | some v =>
      { encryptedValue := some (encryptData st.managerKey v)
        meta := some
          { fieldName := fieldName
            keyId := st.currentKeyId
            dataType := "str" } }

/-- `FieldEncryption.decrypt_field` (lines 129-182) with the default
`expected_type=str`: a `None` envelope decrypts to `None`; absent
metadata makes `metadata.get` raise into the EncryptionError wrapper;
otherwise the metadata `key_id` (always set by `encrypt_field`) must
exist in the key store (else EncryptionError), after which the value
is decrypted with `self.security_manager.decrypt_data` — again the
fixed Fernet of the manager; the per-key Fernet looked up from the
store is assigned to a local that is never used. -/
def decrypt_field (st : FieldEncryptionState) (env : EncryptedField) :
    Except String (Option String) :=
  match env.encryptedValue with
  | none => .ok none
  | some token =>
      match env.meta with
      | none => .error "Failed to decrypt field: metadata is None"
      | some m =>
          let keyId := m.keyId
          if (st.keyStore.lookup keyId).isSome then
            match decryptData st.managerKey token with
            | .ok v => .ok (some v)
            | .error e => .error ("Failed to decrypt field: " ++ e)
          else
            .error ("Encryption key not found: " ++ keyId)

/-- `FieldEncryption.rotate_encryption_key` (lines 241-280): install a
new key under a fresh id, mark the previous current key inactive, and
make the new id current.  The new key id is `key_<unix time>` in the
source; it is a parameter here. -/
def rotate_encryption_key (st : FieldEncryptionState) (newKey : ℕ)
    (newKeyId : String) : FieldEncryptionState :=
  let store1 := dictInsert st.keyStore newKeyId
    { fernetKey := newKey, active := true }
  let store2 := store1.map
    (fun p => if p.1 = st.currentKeyId then
        (p.1, { p.2 with active := false }) else p)
  { managerKey := st.managerKey
    keyStore := store2
    currentKeyId := newKeyId }

/-! Definitions: Rate limiter (`app/utils/rate_limiter.py`) -/

/-- The `RateLimiter` state for one client identifier: the source keys
`request_history` (a deque of request timestamps) and `blocked_clients`
(the block deadline) by `client_id`, and `allow_request(client_id)`
reads and writes only that identifier's entries, so the per-identifier
state is modelled directly.  `max_requests` and `time_window` are the
constructor arguments; timestamps are `time.time()` values. -/
structure RateLimiterState where
  maxRequests : ℕ
  timeWindow : ℚ
  history : List ℚ
  blockedUntil : Option ℚ
deriving DecidableEq, Repr

/-- `RateLimiter._cleanup_old_requests`: pop timestamps from the front
while they are older than `now - time_window`. -/
def cleanupOldRequests (timeWindow now : ℚ) (history : List ℚ) : List ℚ :=
  history.dropWhile (fun t => decide (t < now - timeWindow))

/-- The unblocked part of `RateLimiter.allow_request` (lines 66-91):
clean the window, then either deny and block until `now + time_window`
(without recording the timestamp) or record the timestamp and admit. -/
def allowRequestCore (st : RateLimiterState) (now : ℚ) :
    Bool × RateLimiterState :=
  let h := cleanupOldRequests st.timeWindow now st.history
  if st.maxRequests ≤ h.length then
    (false, { st with history := h, blockedUntil := some (now + st.timeWindow) })
  else
    (true, { st with history := h ++ [now] })

/-- `RateLimiter.allow_request` from `app/utils/rate_limiter.py`
(lines 42-91) together with `_block_client` (lines 101-107): a client
still inside its block deadline is denied with no state change; an
expired block is removed before the sliding-window check runs. -/
def allowRequest (st : RateLimiterState) (now : ℚ) :
    Bool × RateLimiterState :=
  match st.blockedUntil with
  | some deadline =>
      if now < deadline then (false, st)
      else allowRequestCore { st with blockedUntil := none } now
  | none => allowRequestCore st now

/-- A sequence of `allow_request` calls at the given times, returning
the list of admission results and the final state. -/
def runRequests (st : RateLimiterState) : List ℚ → List Bool × RateLimiterState
  | [] => ([], st)
  | t :: ts =>
      let r := allowRequest st t
      let rest := runRequests r.2 ts
      (r.1 :: rest.1, rest.2)

/-- The concrete limiter state used in the C10 witness: one slot per
10-second window with an old request at time 0. -/
def rlStart : RateLimiterState :=
  { maxRequests := 1, timeWindow := 10, history := [0],
    blockedUntil := none }

/-- `rlStart` after the denial at time 1: blocked until 11. -/
def rlBlocked : RateLimiterState :=
  { maxRequests := 1, timeWindow := 10, history := [0],
    blockedUntil := some 11 }

/-! Definitions: Ingestion and the per-email pipeline
(`app/services/database_service.py`, `app/services/email_processor.py`) -/

/-- The email-table columns read by the ingestion claim. -/
structure EmailRec where
  id : String
  senderEmail : String
  subject : String
  body : String
  receivedDateTime : ℚ
deriving DecidableEq, Repr

/-- `EmailRepository.create_email` from `app/services/database_service.py`
(lines 61-93) against a store with a unique index on `id`: inserting a
fresh id commits the row; inserting an existing id raises
IntegrityError, which is caught — the transaction is rolled back (store
unchanged) and the existing row is returned via `get_by_id`. -/
def createEmail (store : List EmailRec) (e : EmailRec) :
    Option EmailRec × List EmailRec :=
  match store.find? (fun r => r.id == e.id) with
  | some existing => (some existing, store)
  | none => (some e, store ++ [e])

/-- The Teams group returned by
`TeamsEscalationManager.create_escalation_team`. -/
structure TeamInfo where
  teamId : String
  teamName : String
deriving DecidableEq, Repr

/-- The outcome of every external call `_process_single_email` makes,
fixed for the message being processed: the classification produced by
`llm_service.classify_email` (total — it returns its fallback instead
of raising, see `classifyEmail`), the generated response text (also
total — `generate_response_suggestion` returns a canned string on
error), whether `send_reply` returns True, and the escalation-team
creation outcome.  `mark_as_read` and the security screening swallow
their own errors and do not influence the result. -/
structure PipelineEnv where
  classification : ClassificationResult
  responseContent : String
  sendSucceeds : Bool
  escalationTeam : Except String TeamInfo
deriving Repr

/-- The `action_taken` strings stored by the four handlers, recorded as
a constructor carrying the interpolated data instead of the formatted
text. -/
inductive ActionTaken where
  | autoReplySent (category : EmailCategory)
  | suggestedResponse (category : EmailCategory)
  | escalatedToTeams (teamName : String)
  | flaggedForManualReview (category : EmailCategory) (confidence : ℚ)
deriving DecidableEq, Repr

/-- The fields of the pydantic `ProcessingResult` that
`_process_single_email` writes. -/
structure ProcResult where
  emailId : String
  status : ProcessingStatus
  classification : Option ClassificationResult
  actionTaken : Option ActionTaken
  escalationId : Option String
  responseSent : Bool
  errorMessage : Option String
deriving DecidableEq, Repr

/-- Counts of externally visible effects of one or more pipeline runs:
classifications performed (calls to `classify_email`), replies
successfully sent (`send_reply` returning True), and escalation groups
created. -/
structure PipelineEffects where
  classificationsPerformed : ℕ
  repliesSent : ℕ
  escalationsCreated : ℕ
deriving DecidableEq, Repr

/-- Pointwise sum of effect counts. -/
def addEffects (a b : PipelineEffects) : PipelineEffects :=
  { classificationsPerformed :=
      a.classificationsPerformed + b.classificationsPerformed
    repliesSent := a.repliesSent + b.repliesSent
    escalationsCreated := a.escalationsCreated + b.escalationsCreated }

/-- `EmailProcessingPipeline._process_single_email` from
`app/services/email_processor.py` (lines 122-176).  The function takes
no stored state: it classifies, routes, dispatches to one of the four
handlers — auto-processing falls back to manual review when the send
fails, escalation falls back to manual review when group creation
raises — marks the mail read and sets status COMPLETED.  No branch
consults existing ProcessingResults and no handler lets an exception
reach the outer handler, so the FAILED branch is unreachable from
these callees. -/
def processSingleEmail (th : ConfidenceThresholds) (env : PipelineEnv)
    (email : EmailRec) : ProcResult × PipelineEffects :=
  let cls := env.classification
  match makeRoutingDecision th cls with
  | .autoHandle =>
      if env.sendSucceeds then
        ({ emailId := email.id, status := .completed,
           classification := some cls,
           actionTaken := some (.autoReplySent cls.category),
           escalationId := none, responseSent := true,
           errorMessage := none },
         { classificationsPerformed := 1, repliesSent := 1,
           escalationsCreated := 0 })
      else
        ({ emailId := email.id, status := .completed,
           classification := some cls,
           actionTaken := some
             (.flaggedForManualReview cls.category cls.confidence),
           escalationId := none, responseSent := false,
           errorMessage := none },
         { classificationsPerformed := 1, repliesSent := 0,
           escalationsCreated := 0 })
  | .suggestResponse =>
      ({ emailId := email.id, status := .completed,
         classification := some cls,
         actionTaken := some (.suggestedResponse cls.category),
         escalationId := none, responseSent := false,
         errorMessage := none },
       { classificationsPerformed := 1, repliesSent := 0,
         escalationsCreated := 0 })
  | .escalate =>
      match env.escalationTeam with
      | .ok team =>
          ({ emailId := email.id, status := .completed,
             classification := some cls,
             actionTaken := some (.escalatedToTeams team.teamName),
             escalationId := some team.teamId, responseSent := false,
             errorMessage := none },
           { classificationsPerformed := 1, repliesSent := 0,
             escalationsCreated := 1 })
      | .error _ =>
          ({ emailId := email.id, status := .completed,
             classification := some cls,
             actionTaken := some
               (.flaggedForManualReview cls.category cls.confidence),
             escalationId := none, responseSent := false,
             errorMessage := none },
           { classificationsPerformed := 1, repliesSent := 0,
             escalationsCreated := 0 })
  | .manualReview =>
      ({ emailId := email.id, status := .completed,
         classification := some cls,
         actionTaken := some
           (.flaggedForManualReview cls.category cls.confidence),
         escalationId := none, responseSent := false,
         errorMessage := none },
       { classificationsPerformed := 1, repliesSent := 0,
         escalationsCreated := 0 })

/-- Total effects of processing the same email `n` sequential times
through `_process_single_email` with the same call outcomes. -/
def runPipeline (th : ConfidenceThresholds) (env : PipelineEnv)
    (email : EmailRec) : ℕ → PipelineEffects
  | 0 => { classificationsPerformed := 0, repliesSent := 0,
           escalationsCreated := 0 }
  | n + 1 =>
      addEffects (runPipeline th env email n)
        (processSingleEmail th env email).2

/-- The concrete message and call outcomes of the C1 counterexample: a
SUPPORT classification at confidence 92, urgency MEDIUM, with the
reply send succeeding. -/
def envAuto : PipelineEnv :=
  { classification :=
      { category := .support, confidence := 92,
        reasoning := "password reset request", urgency := .medium,
        suggestedAction := "reply with reset steps",
        requiredExpertise := [], estimatedEffort := "minutes" }
    responseContent := "Here are the reset steps."
    sendSucceeds := true
    escalationTeam := .error "not invoked" }

/-- The email of the C1 counterexample. -/
def emailAuto : EmailRec :=
  { id := "AAMkADQ1", senderEmail := "user at example.com",
    subject := "Password reset", body := "I forgot my password.",
    receivedDateTime := 0 }

/-- The two-message mailbox used by the fetch witness. -/
def sampleMailbox : List GraphMessage :=
  [{ id := "m1", receivedDateTime := 1, isRead := false },
   { id := "m2", receivedDateTime := 2, isRead := false }]

/-- The original email used by the reply witness. -/
def sampleOriginal : OriginalEmail :=
  { id := "m1", senderEmail := "user at example.com", senderName := none,
    subject := "Password reset" }

/-! Theorems: each claim of the specification audit, its
counterexamples and witnesses, and the helper lemmas they share. -/

/-- C2: for every confidence in [0,100] and every urgency, the router
returns exactly the action of the first matching row of the decision
table with the default thresholds (auto=85, suggest=60, review=40);
in particular, for urgency CRITICAL or HIGH with confidence at least
suggest, the urgency row preempts AUTO_REPLY even when confidence
reaches the auto threshold. -/
theorem router_follows_decision_table (confidence : ℚ)
    (urgency : UrgencyLevel)
    (h0 : 0 ≤ confidence) (h1 : confidence ≤ 100) :
    makeRoutingDecision defaultThresholds (mkRouterInput confidence urgency) =
      routerSpecTable 85 60 40 confidence urgency ∧
    ((urgency = .critical ∨ urgency = .high) → 60 ≤ confidence →
      makeRoutingDecision defaultThresholds (mkRouterInput confidence urgency) =
        .escalate) := by
  constructor
  · rfl
  · intro hu hc
    simp [makeRoutingDecision, mkRouterInput, defaultThresholds, hu, hc]

/-- Witness for C2: at confidence 88 and urgency CRITICAL both
hypotheses hold and the router escalates although 85 ≤ 88. -/
theorem router_follows_decision_table_witness :
    (0 : ℚ) ≤ 88 ∧ (88 : ℚ) ≤ 100 ∧
    makeRoutingDecision defaultThresholds (mkRouterInput 88 .critical) =
      .escalate := by
  refine ⟨by norm_num, by norm_num, ?_⟩
  exact (router_follows_decision_table 88 .critical (by norm_num)
    (by norm_num)).2 (Or.inl rfl) (by norm_num)

/-- C3: when the LLM invocation fails after all retries, the classifier
returns the fallback result — category INFORMATION, confidence 0,
urgency MEDIUM, reasoning carrying the error text — instead of
propagating, and the router sends that fallback to ESCALATE. -/
theorem classifier_fallback_escalates (e : String) :
    classifyEmail (.error e) = fallbackClassification e ∧
    (classifyEmail (.error e)).category = .information ∧
    (classifyEmail (.error e)).confidence = 0 ∧
    (classifyEmail (.error e)).reasoning = "Classification failed: " ++ e ∧
    (classifyEmail (.error e)).urgency = .medium ∧
    makeRoutingDecision defaultThresholds (classifyEmail (.error e)) =
      .escalate := by
  refine ⟨rfl, rfl, rfl, rfl, rfl, ?_⟩
  norm_num [classifyEmail, fallbackClassification, makeRoutingDecision,
    defaultThresholds]

/-- Counterexample to C7: a response that decodes to a JSON object with
no confidence field yields confidence 50, not a value capped at 25. -/
theorem missing_confidence_not_capped :
    (classifyEmail
      (.ok (some [("category", Jval.str "SUPPORT")]))).confidence = 50 ∧
    ¬ (classifyEmail
      (.ok (some [("category", Jval.str "SUPPORT")]))).confidence ≤ 25 := by
  constructor
  · rfl
  · intro h
    rw [show (classifyEmail
        (.ok (some [("category", Jval.str "SUPPORT")]))).confidence = 50
      from rfl] at h
    norm_num at h

/-- C7 as amended: an unknown category value makes the enum constructor
raise, so the whole classification falls back to the error result
(INFORMATION, MEDIUM, confidence 0) rather than being normalized in
place; a decodable response with missing fields gets the defaults
INFORMATION / MEDIUM with confidence 50; confidence 25 appears exactly
when the response is not decodable JSON. -/
theorem classification_normalization_behaviour :
    (∀ s : String, emailCategoryOfString s = none →
      classifyEmail (.ok (some [("category", Jval.str s)])) =
        fallbackClassification ("is not a valid EmailCategory: " ++ s)) ∧
    classifyEmail (.ok (some [])) =
      { category := .information
        confidence := 50
        reasoning := "No reasoning provided"
        urgency := .medium
        suggestedAction := "Manual review required"
        requiredExpertise := ["it_admin"]
        estimatedEffort := "Unknown" } ∧
    classifyEmail (.ok none) =
      { category := .information
        confidence := 25
        reasoning := "Failed to parse LLM response"
        urgency := .medium
        suggestedAction := "Manual review required"
        requiredExpertise := ["it_admin"]
        estimatedEffort := "Unknown" } := by
  refine ⟨?_, rfl, rfl⟩
  intro s hs
  simp [classifyEmail, parseClassificationResponse, buildClassification,
    setDefault, getOr, hs, Bind.bind, Except.bind]

/-- Witness for the amended C7: the unknown category SPAM triggers the
error fallback with confidence 0. -/
theorem classification_normalization_behaviour_witness :
    emailCategoryOfString "SPAM" = none ∧
    classifyEmail (.ok (some [("category", Jval.str "SPAM")])) =
      fallbackClassification "is not a valid EmailCategory: SPAM" :=
  ⟨rfl, classification_normalization_behaviour.1 "SPAM" rfl⟩

/-- Unfolding equation for one loop iteration of `callLLMGo`. -/
theorem callLLMGo_succ (delay : ℚ) (total : ℕ)
    (outcomes : ℕ → Except String String) (attempt fuel : ℕ)
    (lastErr : String) :
    callLLMGo delay total outcomes attempt (fuel + 1) lastErr =
      (match outcomes attempt with
       | .ok content => (.ok content, [])
       | .error e =>
           if fuel = 0 then
             (.error ("LLM call failed after " ++ toString total ++
               " attempts: " ++ e), [])
           else
             ((callLLMGo delay total outcomes (attempt + 1) fuel e).1,
              delay * ((attempt : ℚ) + 1) ::
                (callLLMGo delay total outcomes (attempt + 1) fuel e).2)) :=
  rfl

/-- Rearrangement of the sleep schedule used when peeling one retry off
the front of the loop. -/
theorem sleep_schedule_cons (delay : ℚ) (attempt n : ℕ) :
    delay * ((attempt : ℚ) + 1) ::
      (List.range n).map
        (fun k => delay * (((attempt + 1 + k : ℕ) : ℚ) + 1)) =
      (List.range (n + 1)).map
        (fun k => delay * (((attempt + k : ℕ) : ℚ) + 1)) := by
  rw [List.range_succ_eq_map, List.map_cons, List.map_map]
  refine congrArg₂ List.cons (by norm_num) ?_
  refine List.map_congr_left (fun k _ => ?_)
  simp only [Function.comp_apply]
  exact congrArg (fun n : ℕ => delay * ((n : ℚ) + 1)) (by omega)

/-- When every attempt fails, the retry loop performs the remaining
attempts, sleeping `delay * (attempt + 1)` after each failure but the
last, and raises carrying the final error.  Failures are indexed by the
absolute attempt number. -/
theorem callLLMGo_all_fail (delay : ℚ) (total : ℕ)
    (outcomes : ℕ → Except String String) (E : ℕ → String) :
    ∀ (fuel attempt : ℕ) (lastErr : String), 0 < fuel →
    (∀ k, k < fuel → outcomes (attempt + k) = .error (E (attempt + k))) →
    callLLMGo delay total outcomes attempt fuel lastErr =
      (.error ("LLM call failed after " ++ toString total ++ " attempts: " ++
        E (attempt + fuel - 1)),
       (List.range (fuel - 1)).map
         (fun k => delay * (((attempt + k : ℕ) : ℚ) + 1))) := by
  intro fuel
  induction fuel with
  | zero => intro attempt lastErr h; exact absurd h (by simp)
  | succ f ih =>
    intro attempt lastErr _ hE
    have h0 : outcomes attempt = .error (E attempt) := by
      simpa using hE 0 (Nat.succ_pos f)
    rw [callLLMGo_succ]
    simp only [h0]
    cases f with
    | zero => simp
    | succ g =>
      have hrec := ih (attempt + 1) (E attempt) (Nat.succ_pos g)
        (fun k hk => by
          have := hE (k + 1) (by omega)
          simpa [Nat.add_assoc, Nat.add_comm 1 k] using this)
      rw [if_neg (Nat.succ_ne_zero g), hrec]
      refine congrArg₂ Prod.mk ?_ ?_
      · exact congrArg
          (fun i => Except.error (α := String)
            ("LLM call failed after " ++ toString total ++ " attempts: " ++
              E i))
          (by omega)
      · show delay * ((attempt : ℚ) + 1) ::
          (List.range (g + 1 - 1)).map
            (fun k => delay * (((attempt + 1 + k : ℕ) : ℚ) + 1)) =
          (List.range (g + 1 + 1 - 1)).map
            (fun k => delay * (((attempt + k : ℕ) : ℚ) + 1))
        simpa using sleep_schedule_cons delay attempt g

/-- When the first `j` attempts fail and attempt `j` succeeds, the loop
returns the successful content after `j` back-off sleeps of
`delay * (attempt + 1)` each. -/
theorem callLLMGo_success (delay : ℚ) (total : ℕ)
    (outcomes : ℕ → Except String String) (E : ℕ → String) :
    ∀ (j fuel attempt : ℕ) (lastErr c : String), j < fuel →
    outcomes (attempt + j) = .ok c →
    (∀ k, k < j → outcomes (attempt + k) = .error (E (attempt + k))) →
    callLLMGo delay total outcomes attempt fuel lastErr =
      (.ok c,
       (List.range j).map
         (fun k => delay * (((attempt + k : ℕ) : ℚ) + 1))) := by
  intro j
  induction j with
  | zero =>
    intro fuel attempt lastErr c hj hok _
    match fuel, hj with
    | f + 1, _ =>
      simp only [Nat.add_zero] at hok
      rw [callLLMGo_succ]
      simp [hok]
  | succ m ih =>
    intro fuel attempt lastErr c hj hok hE
    match fuel, hj with
    | f + 1, hj =>
      have h0 : outcomes attempt = .error (E attempt) := by
        simpa using hE 0 (Nat.succ_pos m)
      have hf : f ≠ 0 := by omega
      have hrec := ih f (attempt + 1) (E attempt) c (by omega)
        (by simpa [Nat.add_assoc, Nat.add_comm 1 m] using hok)
        (fun k hk => by
          have := hE (k + 1) (by omega)
          simpa [Nat.add_assoc, Nat.add_comm 1 k] using this)
      rw [callLLMGo_succ]
      simp only [h0]
      rw [if_neg hf, hrec]
      refine congrArg₂ Prod.mk rfl ?_
      show delay * ((attempt : ℚ) + 1) ::
          (List.range m).map
            (fun k => delay * (((attempt + 1 + k : ℕ) : ℚ) + 1)) =
          (List.range (m + 1)).map
            (fun k => delay * (((attempt + k : ℕ) : ℚ) + 1))
      exact sleep_schedule_cons delay attempt m

/-- Counterexample to C6: with max_retries = 4 and delay = 1 the sleeps
between attempts are 1, 2, 3 (linear `delay * (attempt + 1)`), not the
claimed exponential 1, 2, 4 (`delay * 2 ^ attempt`); and an HTTP 400
validation error on the first attempt is retried like any other
failure. -/
theorem retry_backoff_is_linear_counterexample :
    (callLLMWithRetry 4 1 (fun _ => .error "boom")).2 = [1, 2, 3] ∧
    (callLLMWithRetry 4 1 (fun _ => .error "boom")).2 ≠
      [1 * 2 ^ 0, 1 * 2 ^ 1, 1 * 2 ^ 2] ∧
    (callLLMWithRetry 2 1
      (fun n => if n = 0 then .error "Error code 400 - invalid request"
                else .ok "ok")).1 = .ok "ok" := by
  have hval : (callLLMWithRetry 4 1 (fun _ => .error "boom")).2 = [1, 2, 3] := by
    show ([(1 : ℚ) * ((0 : ℕ) + 1), 1 * ((1 : ℕ) + 1), 1 * ((2 : ℕ) + 1)] :
      List ℚ) = [1, 2, 3]
    norm_num
  refine ⟨hval, ?_, rfl⟩
  rw [hval]
  intro h
  have h3 : (3 : ℚ) = 1 * 2 ^ 2 := by
    simpa using congrArg (fun l : List ℚ => l.getD 2 0) h
  norm_num at h3

/-- C6 as amended: the LLM client retries a failed invocation up to
max_retries times, waiting the linearly increasing back-off
`delay * (attempt + 1)` between attempt `attempt` and the next (not
`delay * 2 ^ attempt`); every failure is retried alike — network
timeouts, HTTP errors of any status class including 4xx validation
errors, and empty choices all reach the same handler — and after
max_retries failures the final error is raised. -/
theorem retry_policy_characterization (maxRetries : ℕ) (delay : ℚ)
    (outcomes : ℕ → Except String String) (E : ℕ → String) :
    (0 < maxRetries →
      (∀ k, k < maxRetries → outcomes k = .error (E k)) →
      callLLMWithRetry maxRetries delay outcomes =
        (.error ("LLM call failed after " ++ toString maxRetries ++
          " attempts: " ++ E (maxRetries - 1)),
         (List.range (maxRetries - 1)).map
           (fun (k : ℕ) => delay * ((k : ℚ) + 1)))) ∧
    (∀ (j : ℕ) (c : String), j < maxRetries → outcomes j = .ok c →
      (∀ k, k < j → outcomes k = .error (E k)) →
      callLLMWithRetry maxRetries delay outcomes =
        (.ok c,
         (List.range j).map (fun (k : ℕ) => delay * ((k : ℚ) + 1)))) := by
  constructor
  · intro hpos hE
    have := callLLMGo_all_fail delay maxRetries outcomes E maxRetries 0
      "None" hpos (fun k hk => by simpa using hE k hk)
    simpa [callLLMWithRetry] using this
  · intro j c hj hok hE
    have := callLLMGo_success delay maxRetries outcomes E j maxRetries 0
      "None" c hj (by simpa using hok) (fun k hk => by simpa using hE k hk)
    simpa [callLLMWithRetry] using this

/-- Witness for the amended C6: three attempts with a timeout, then an
HTTP 500, then success, sleeping delay 2 then 4 between attempts. -/
theorem retry_policy_characterization_witness :
    (2 : ℕ) < 3 ∧
    (fun n => if n = 0 then Except.error "request timeout"
              else if n = 1 then Except.error "http 500"
              else Except.ok "done" : ℕ → Except String String) 2 =
      .ok "done" ∧
    callLLMWithRetry 3 2
      (fun n => if n = 0 then Except.error "request timeout"
                else if n = 1 then Except.error "http 500"
                else Except.ok "done") =
      (.ok "done", [2 * ((0 : ℚ) + 1), 2 * ((1 : ℚ) + 1)]) := by
  refine ⟨by norm_num, rfl, ?_⟩
  have := (retry_policy_characterization 3 2
    (fun n => if n = 0 then Except.error "request timeout"
              else if n = 1 then Except.error "http 500"
              else Except.ok "done")
    (fun n => if n = 0 then "request timeout" else "http 500")).2
    2 "done" (by norm_num) rfl
    (by
      intro k hk
      interval_cases k <;> rfl)
  simpa [List.range_succ] using this

/-- Counterexample to C4: the assignment auto=70, suggest=90, review=50
violates the chain (suggest > auto) yet configuration validation
accepts it, so violations of the ordering are not rejected at load. -/
theorem threshold_ordering_not_validated :
    validateThresholdSettings { auto := 70, suggest := 90, review := 50 } =
      .ok { auto := 70, suggest := 90, review := 50 } ∧
    ¬ ({ auto := 70, suggest := 90, review := 50 } :
        ThresholdSettings).suggest ≤
      ({ auto := 70, suggest := 90, review := 50 } :
        ThresholdSettings).auto := by
  constructor
  · rfl
  · norm_num

/-- C4 as amended: configuration load validates only the auto threshold
— a `Settings` value is accepted exactly when 70 ≤ auto ≤ 100 — and no
validator enforces the chain review ≤ suggest ≤ auto, so assignments
with suggest > auto or review > suggest load successfully; the default
assignment (85, 60, 40) does satisfy
0 ≤ review ≤ suggest ≤ auto ≤ 100. -/
theorem threshold_validation_characterization (t : ThresholdSettings) :
    (validateThresholdSettings t = .ok t ↔ 70 ≤ t.auto ∧ t.auto ≤ 100) ∧
    (0 ≤ defaultThresholdSettings.review ∧
     defaultThresholdSettings.review ≤ defaultThresholdSettings.suggest ∧
     defaultThresholdSettings.suggest ≤ defaultThresholdSettings.auto ∧
     defaultThresholdSettings.auto ≤ 100) := by
  constructor
  · constructor
    · intro h
      by_contra hc
      simp only [validateThresholdSettings, if_neg hc] at h
      exact Except.noConfusion h
    · intro h
      simp [validateThresholdSettings, h]
  · refine ⟨by norm_num [defaultThresholdSettings],
      by norm_num [defaultThresholdSettings],
      by norm_num [defaultThresholdSettings],
      by norm_num [defaultThresholdSettings]⟩

/-- Counterexample to C5: two unread messages received at times 1 and 2
come back as [2, 1] — newest first — so the fetch order is descending,
not the claimed ascending order. -/
theorem fetch_order_descending_counterexample :
    (fetchNewEmails 10 none
        [{ id := "m1", receivedDateTime := 1, isRead := false },
         { id := "m2", receivedDateTime := 2, isRead := false }]).map
      (fun m => m.receivedDateTime) = [2, 1] ∧
    ¬ List.Sorted (· ≤ ·)
      ((fetchNewEmails 10 none
          [{ id := "m1", receivedDateTime := 1, isRead := false },
           { id := "m2", receivedDateTime := 2, isRead := false }]).map
        (fun m => m.receivedDateTime)) := by
  have hval : (fetchNewEmails 10 none
      [{ id := "m1", receivedDateTime := 1, isRead := false },
       { id := "m2", receivedDateTime := 2, isRead := false }]).map
      (fun m => m.receivedDateTime) = [2, 1] := by
    norm_num [fetchNewEmails, matchesFetchFilter, List.filter,
      List.insertionSort, List.orderedInsert]
  refine ⟨hval, ?_⟩
  rw [hval]
  intro h
  have h21 : (2 : ℚ) ≤ 1 := List.rel_of_sorted_cons h 1 (by simp)
  norm_num at h21

/-- C5 as amended: for every optional since-timestamp, fetch_new_emails
returns at most batch_size messages, ordered by received time
DESCENDING (newest first), each unread and past the lower bound. -/
theorem fetch_batch_and_order (batchSize : ℕ) (since : Option ℚ)
    (mailbox : List GraphMessage) :
    (fetchNewEmails batchSize since mailbox).length ≤ batchSize ∧
    List.Sorted (fun a b : GraphMessage =>
        b.receivedDateTime ≤ a.receivedDateTime)
      (fetchNewEmails batchSize since mailbox) ∧
    ∀ m ∈ fetchNewEmails batchSize since mailbox,
      matchesFetchFilter since m = true := by
  refine ⟨List.length_take_le _ _, ?_, ?_⟩
  · letI : IsTotal GraphMessage
        (fun a b => b.receivedDateTime ≤ a.receivedDateTime) :=
      ⟨fun a b => le_total b.receivedDateTime a.receivedDateTime⟩
    letI : IsTrans GraphMessage
        (fun a b => b.receivedDateTime ≤ a.receivedDateTime) :=
      ⟨fun _ _ _ hab hbc => le_trans hbc hab⟩
    exact (List.sorted_insertionSort _ _).sublist (List.take_sublist _ _)
  · intro m hm
    have hm2 : m ∈ (mailbox.filter (matchesFetchFilter since)).insertionSort
        (fun a b => b.receivedDateTime ≤ a.receivedDateTime) :=
      List.mem_of_mem_take hm
    have hm3 : m ∈ mailbox.filter (matchesFetchFilter since) :=
      (List.mem_insertionSort _).mp hm2
    exact List.of_mem_filter hm3

/-- Counterexample to C8: replying to an email whose subject already
starts with "Re:" produces the doubled prefix "Re: Re:" — the reply
subject is not left as the original, and its first seven characters
read "Re: Re:". -/
theorem reply_subject_doubles_counterexample :
    (buildReplyMessage
      { id := "m1", senderEmail := "user at example.com",
        senderName := none, subject := "Re: Password reset" }
      "body" false).subject = "Re: Re: Password reset" ∧
    (buildReplyMessage
      { id := "m1", senderEmail := "user at example.com",
        senderName := none, subject := "Re: Password reset" }
      "body" false).subject ≠ "Re: Password reset" ∧
    ("Re: Re: Password reset".data.take 7 = "Re: Re:".data) := by
  exact ⟨rfl, by decide, by decide⟩

/-- C8 as amended: send_reply always prefixes the original subject with
"Re: ", whether or not the prefix is already present; in particular any
subject already starting with "Re:" yields a reply subject starting
with "Re: Re:". -/
theorem reply_subject_always_prefixed (original : OriginalEmail)
    (replyContent : String) (isHtml : Bool) :
    (buildReplyMessage original replyContent isHtml).subject =
      "Re: " ++ original.subject ∧
    (buildReplyMessage original replyContent isHtml).toAddress =
      original.senderEmail := by
  exact ⟨rfl, rfl⟩

/-- Mapping a key-preserving function over an association list leaves
which keys are present unchanged. -/
theorem lookup_isSome_map_keyFix (f : String × KeyEntry → String × KeyEntry)
    (hf : ∀ p, (f p).1 = p.1) :
    ∀ (l : List (String × KeyEntry)) (k : String),
    ((l.map f).lookup k).isSome = (l.lookup k).isSome := by
  intro l
  induction l with
  | nil => intro k; rfl
  | cons p rest ih =>
    intro k
    cases p with
    | mk pk pv =>
      cases hfp : f (pk, pv) with
      | mk a b =>
        have ha : a = pk := by simpa [hfp] using hf (pk, pv)
        subst ha
        simp only [List.map_cons, hfp, List.lookup]
        cases hkk : (k == a) <;> simp [hkk, ih]

/-- `dictInsert` never removes a binding: any id present before an
insertion is still present afterwards. -/
theorem dictInsert_preserves_mem (store : List (String × KeyEntry))
    (k : String) (v : KeyEntry) (k' : String)
    (h : (store.lookup k').isSome) :
    ((dictInsert store k v).lookup k').isSome := by
  unfold dictInsert
  split
  · rw [lookup_isSome_map_keyFix (fun p => if p.1 = k then (k, v) else p)
      (fun p => by by_cases hp : p.1 = k <;> simp [hp])]
    exact h
  · rw [List.lookup_append]
    rw [Option.isSome_iff_exists] at h
    obtain ⟨w, hw⟩ := h
    simp [hw]

/-- Key rotation never drops a key-store binding: every id resolvable
before `rotate_encryption_key` is still resolvable afterwards. -/
theorem rotate_preserves_key_presence (st : FieldEncryptionState)
    (newKey : ℕ) (newKeyId : String) (k : String)
    (h : (st.keyStore.lookup k).isSome) :
    (((rotate_encryption_key st newKey newKeyId).keyStore).lookup k).isSome
    := by
  unfold rotate_encryption_key
  simp only
  rw [lookup_isSome_map_keyFix
      (fun p => if p.1 = st.currentKeyId then
        (p.1, { p.2 with active := false }) else p)
      (fun p => by by_cases hp : p.1 = st.currentKeyId <;> simp [hp])]
  exact dictInsert_preserves_mem _ _ _ _ h

/-- C9: encrypting a field and decrypting the resulting envelope yields
the original value, and after a key rotation the same envelope — whose
metadata key_id now names the retired key — still decrypts to the
original value.  (Both encryption and decryption go through the
security manager's fixed Fernet, and rotation keeps the retired id in
the key store, so the round trip survives.) -/
theorem encryption_roundtrip_with_rotation (st : FieldEncryptionState)
    (fieldName value : String) (newKey : ℕ) (newKeyId : String)
    (h : (st.keyStore.lookup st.currentKeyId).isSome) :
    decrypt_field st (encrypt_field st fieldName (some value)) =
      .ok (some value) ∧
    decrypt_field (rotate_encryption_key st newKey newKeyId)
      (encrypt_field st fieldName (some value)) = .ok (some value) := by
  constructor
  · simp [encrypt_field, decrypt_field, encryptData, decryptData, h]
  · have hrot := rotate_preserves_key_presence st newKey newKeyId
      st.currentKeyId h
    simp [encrypt_field, decrypt_field, encryptData, decryptData,
      rotate_encryption_key] at hrot ⊢
    simp [hrot]

/-- Witness for C9: with the freshly initialised key management and
manager key 7, the envelope for value "hello" round-trips before and
after rotating to key 9 under id key_1700000000. -/
theorem encryption_roundtrip_with_rotation_witness :
    ((initFieldEncryption 7).keyStore.lookup
      (initFieldEncryption 7).currentKeyId).isSome ∧
    decrypt_field (initFieldEncryption 7)
      (encrypt_field (initFieldEncryption 7) "body" (some "hello")) =
      .ok (some "hello") ∧
    decrypt_field
      (rotate_encryption_key (initFieldEncryption 7) 9 "key_1700000000")
      (encrypt_field (initFieldEncryption 7) "body" (some "hello")) =
      .ok (some "hello") := by
  refine ⟨by decide, ?_, ?_⟩
  · exact (encryption_roundtrip_with_rotation (initFieldEncryption 7)
      "body" "hello" 9 "key_1700000000" (by decide)).1
  · exact (encryption_roundtrip_with_rotation (initFieldEncryption 7)
      "body" "hello" 9 "key_1700000000" (by decide)).2

/-- C10: when a request at time t0 is denied because the windowed count
reaches max_requests, the block deadline is set to exactly
t0 + time_window and no timestamp is recorded; every later call before
that deadline returns False and leaves the state — deadline and history
— completely unchanged (denied requests never consume window capacity),
including along any sequence of such calls; and the first call at or
after the deadline removes the block and is admitted exactly when the
sliding-window count at that time is below max_requests. -/
theorem rate_limiter_block_lifecycle (st : RateLimiterState)
    (t0 t1 t2 : ℚ) (ts : List ℚ)
    (hnb : st.blockedUntil = none)
    (hfull : st.maxRequests ≤
      (cleanupOldRequests st.timeWindow t0 st.history).length)
    (ht1 : t1 < t0 + st.timeWindow)
    (hts : ∀ t ∈ ts, t < t0 + st.timeWindow)
    (ht2 : t0 + st.timeWindow ≤ t2) :
    allowRequest st t0 =
      (false,
       { st with
          history := cleanupOldRequests st.timeWindow t0 st.history
          blockedUntil := some (t0 + st.timeWindow) }) ∧
    allowRequest (allowRequest st t0).2 t1 = (false, (allowRequest st t0).2) ∧
    runRequests (allowRequest st t0).2 ts =
      (ts.map (fun _ => false), (allowRequest st t0).2) ∧
    allowRequest (allowRequest st t0).2 t2 =
      allowRequestCore { (allowRequest st t0).2 with blockedUntil := none }
        t2 ∧
    (allowRequest (allowRequest st t0).2 t2).1 =
      decide ((cleanupOldRequests st.timeWindow t2
        (allowRequest st t0).2.history).length < st.maxRequests) := by
  have hstep : allowRequest st t0 =
      (false,
       { st with
          history := cleanupOldRequests st.timeWindow t0 st.history
          blockedUntil := some (t0 + st.timeWindow) }) := by
    simp [allowRequest, allowRequestCore, hnb, hfull]
  have hblocked : ∀ t : ℚ, t < t0 + st.timeWindow →
      allowRequest (allowRequest st t0).2 t = (false, (allowRequest st t0).2)
    := by
    intro t ht
    rw [hstep]
    simp [allowRequest, ht]
  refine ⟨hstep, hblocked t1 ht1, ?_, ?_, ?_⟩
  · induction ts with
    | nil => rfl
    | cons t rest ih =>
      have hmem : ∀ u ∈ rest, u < t0 + st.timeWindow :=
        fun u hu => hts u (List.mem_cons_of_mem t hu)
      simp only [runRequests, hblocked t (hts t (List.mem_cons_self t rest)),
        ih hmem, List.map_cons]
  · rw [hstep]
    simp [allowRequest, not_lt.mpr ht2]
  · rw [hstep]
    simp only [allowRequest, allowRequestCore, not_lt.mpr ht2, if_false]
    by_cases hlen : st.maxRequests ≤
        (cleanupOldRequests st.timeWindow t2
          (cleanupOldRequests st.timeWindow t0 st.history)).length
    · simp [hlen, Nat.not_lt.mpr hlen]
    · simp [hlen, Nat.lt_of_not_le (by simpa using hlen)]

/-- Witness for C10: starting from `rlStart`, the call at time 1 is
denied and blocks until 11, the call at time 5 is denied with no state
change, and the call at time 11 is admitted once the block expires and
the window has drained. -/
theorem rate_limiter_block_lifecycle_witness :
    rlStart.blockedUntil = none ∧
    (1 : ℕ) ≤ (cleanupOldRequests 10 1 [0]).length ∧
    (5 : ℚ) < 1 + 10 ∧ (1 : ℚ) + 10 ≤ 11 ∧
    allowRequest rlStart 1 = (false, rlBlocked) ∧
    allowRequest rlBlocked 5 = (false, rlBlocked) ∧
    (allowRequest rlBlocked 11).1 = true := by
  have h := rate_limiter_block_lifecycle rlStart 1 5 11 [] rfl
    (by norm_num [cleanupOldRequests, rlStart])
    (by norm_num [rlStart])
    (by intro t ht; simp at ht)
    (by norm_num [rlStart])
  obtain ⟨h1, h2, _, _, h5⟩ := h
  have ec : cleanupOldRequests rlStart.timeWindow 1 rlStart.history = [0] := by
    norm_num [cleanupOldRequests, rlStart]
  have hb : allowRequest rlStart 1 = (false, rlBlocked) := by
    rw [h1, ec]
    norm_num [rlStart, rlBlocked]
  rw [h1, ec] at h2 h5
  have hb2 : allowRequest rlBlocked 5 = (false, rlBlocked) := by
    have := h2
    simp only [rlStart] at this
    convert this using 2 <;> norm_num [rlStart, rlBlocked]
  refine ⟨rfl, by norm_num [cleanupOldRequests], by norm_num,
    by norm_num, hb, hb2, ?_⟩
  have h5v := h5
  simp only [rlStart] at h5v
  have : (allowRequest rlBlocked 11).1 =
      decide ((cleanupOldRequests rlStart.timeWindow 11 [(0 : ℚ)]).length <
        rlStart.maxRequests) := by
    convert h5v using 3 <;> norm_num [rlStart, rlBlocked]
  rw [this]
  norm_num [cleanupOldRequests, rlStart]

/-- Counterexample to C1: processing the same email twice sends two
replies and classifies twice, even though the first run already ended
with status COMPLETED — the pipeline has no skip on an existing
COMPLETED ProcessingResult, so repeated processing is not a no-op. -/
theorem duplicate_processing_not_skipped :
    (processSingleEmail defaultThresholds envAuto emailAuto).1.status =
      .completed ∧
    (runPipeline defaultThresholds envAuto emailAuto 2).repliesSent = 2 ∧
    ¬ (runPipeline defaultThresholds envAuto emailAuto 2).repliesSent ≤ 1 ∧
    (runPipeline defaultThresholds envAuto emailAuto
      2).classificationsPerformed = 2 := by
  refine ⟨rfl, rfl, by decide, rfl⟩

/-- C1 as amended: store-level ingestion is idempotent — `create_email`
on an id already present returns the existing record and leaves the
store unchanged, and on a fresh id appends exactly one record — but the
pipeline itself has no COMPLETED-skip: `_process_single_email` takes no
stored state, every run classifies exactly once and ends COMPLETED, and
n sequential runs multiply every effect count by n (in particular an
auto-handled email with a successful send yields n sent replies).
At-most-once processing relies on fetching only unread mail and marking
mail read, not on ProcessingResult checks. -/
theorem ingestion_idempotent_pipeline_repeats :
    (∀ (store : List EmailRec) (e r : EmailRec),
      store.find? (fun x => x.id == e.id) = some r →
      createEmail store e = (some r, store)) ∧
    (∀ (store : List EmailRec) (e : EmailRec),
      store.find? (fun x => x.id == e.id) = none →
      createEmail store e = (some e, store ++ [e])) ∧
    (∀ (th : ConfidenceThresholds) (env : PipelineEnv) (email : EmailRec),
      (processSingleEmail th env email).1.status = .completed ∧
      (processSingleEmail th env email).2.classificationsPerformed = 1) ∧
    (∀ (th : ConfidenceThresholds) (env : PipelineEnv) (email : EmailRec)
      (n : ℕ),
      runPipeline th env email n =
        { classificationsPerformed := n,
          repliesSent := n * (processSingleEmail th env email).2.repliesSent,
          escalationsCreated :=
            n * (processSingleEmail th env email).2.escalationsCreated }) := by
  refine ⟨?_, ?_, ?_, ?_⟩
  · intro store e r h
    simp [createEmail, h]
  · intro store e h
    simp [createEmail, h]
  · intro th env email
    unfold processSingleEmail
    cases hd : makeRoutingDecision th env.classification
    · cases he : env.escalationTeam <;> simp [hd, he]
    · cases hs : env.sendSucceeds <;> simp [hd, hs]
    · simp [hd]
    · simp [hd]
  · intro th env email n
    induction n with
    | zero => simp [runPipeline]
    | succ m ih =>
      have hone : (processSingleEmail th env email).2.classificationsPerformed
          = 1 := by
        unfold processSingleEmail
        cases hd : makeRoutingDecision th env.classification
        · cases he : env.escalationTeam <;> simp [hd, he]
        · cases hs : env.sendSucceeds <;> simp [hd, hs]
        · simp [hd]
        · simp [hd]
      simp only [runPipeline, ih, addEffects, hone,
        PipelineEffects.mk.injEq]
      refine ⟨by ring, by ring, by ring⟩

/-- Witness for the amended C1: inserting the counterexample email into
a store already holding it returns the stored record unchanged, and
into an empty store appends it. -/
theorem ingestion_idempotent_pipeline_repeats_witness :
    ([emailAuto].find? (fun x => x.id == emailAuto.id) = some emailAuto) ∧
    createEmail [emailAuto] emailAuto = (some emailAuto, [emailAuto]) ∧
    (([] : List EmailRec).find? (fun x => x.id == emailAuto.id) = none) ∧
    createEmail [] emailAuto = (some emailAuto, [emailAuto]) := by
  refine ⟨by decide, ?_, rfl, ?_⟩
  · exact ingestion_idempotent_pipeline_repeats.1 [emailAuto] emailAuto
      emailAuto (by decide)
  · exact ingestion_idempotent_pipeline_repeats.2.1 [] emailAuto rfl

/-- Witness for C3: the fallback for a timeout is produced and the
router escalates it. -/
theorem classifier_fallback_escalates_witness :
    classifyEmail (.error "timeout") = fallbackClassification "timeout" ∧
    makeRoutingDecision defaultThresholds
      (classifyEmail (.error "timeout")) = .escalate :=
  ⟨(classifier_fallback_escalates "timeout").1,
   (classifier_fallback_escalates "timeout").2.2.2.2.2⟩

/-- Witness for the amended C4: the default thresholds pass
validation. -/
theorem threshold_validation_characterization_witness :
    validateThresholdSettings defaultThresholdSettings =
      .ok defaultThresholdSettings :=
  (threshold_validation_characterization defaultThresholdSettings).1.mpr
    (by norm_num [defaultThresholdSettings])

/-- Witness for the amended C5: a batch of one from the two-message
mailbox respects the page size and descending order. -/
theorem fetch_batch_and_order_witness :
    (fetchNewEmails 1 none sampleMailbox).length ≤ 1 ∧
    List.Sorted (fun a b : GraphMessage =>
      b.receivedDateTime ≤ a.receivedDateTime)
      (fetchNewEmails 1 none sampleMailbox) :=
  ⟨(fetch_batch_and_order 1 none sampleMailbox).1,
   (fetch_batch_and_order 1 none sampleMailbox).2.1⟩

/-- Witness for the amended C8: the sample original subject gets the
prefix. -/
theorem reply_subject_always_prefixed_witness :
    (buildReplyMessage sampleOriginal "body" false).subject =
      "Re: " ++ sampleOriginal.subject :=
  (reply_subject_always_prefixed sampleOriginal "body" false).1

end EmailBot
